import Mathlib

/-!
# Redis client factories (`redis.go`, package `utils`)

A shallow embedding of the two factory functions `NewSentinelnstance` and
`NewClusterlnstance` and of the two configuration records they consume.

The go-redis client library is an external collaborator.  Its types, the
clients it builds and the replies of `Ping` are parameters of the development:
every theorem with a `Library` argument holds for every library.  What
`redis.NewClusterClient` does to the option record behind the pointer it is
given is fixed library code and is modelled as `ClusterOptions.init`.  A `Ping`
on a cluster client either returns or panics inside the library.  The calls a
factory makes are recorded in a trace, the library's own state is threaded
through as `World`, and the package-level variable `redisClient` is part of
the state.
-/

namespace RedisUtils

/-! ## Data model -/

/-- Go `time.Duration`: a signed count of nanoseconds. -/
abbrev Duration := Int

/-- The record `RedisSentinelConfig` (redis.go, lines 14-22). -/
structure RedisSentinelConfig where
  MasterName : String
  SentinelAddrs : List String
  Password : String
  DB : Int
  ReadTimeout : Duration
  WriteTimeout : Duration
  IdleTimeout : Duration
deriving DecidableEq, Repr

/-- The record `RedisClusterlConfig` (redis.go, lines 43-92). -/
structure RedisClusterlConfig where
  Addrs : List String
  Password : String
  ReadOnly : Bool
  RouteByLatency : Bool
  RouteRandomly : Bool
  MaxRedirects : Int
  PoolSize : Int
  MinIdleConns : Int
  MaxRetries : Int
  MinRetryBackoff : Duration
  MaxRetryBackoff : Duration
  DialTimeout : Duration
  ReadTimeout : Duration
  WriteTimeout : Duration
  PoolTimeout : Duration
  IdleCheckFrequency : Duration
  IdleTimeout : Duration
  MaxConnAge : Duration
deriving DecidableEq, Repr

/-- The types the client library provides: `context.Context`, `error`,
`*redis.Conn`, `*redis.Client`, `*redis.ClusterClient`, and the state of the
library and of the network behind it. -/
structure Sig where
  Context : Type
  Error : Type
  Conn : Type
  Client : Type
  ClusterClient : Type
  World : Type

/-- Modelled from the spec: the record type `redis.FailoverOptions` is declared
by the client library, not under src/.  It carries the seven fields the source
assigns and the further options the specification names (username, sentinel
password, retry, dial, pool and connection-age settings). -/
structure FailoverOptions where
  MasterName : String
  SentinelAddrs : List String
  SentinelPassword : String
  Username : String
  Password : String
  DB : Int
  MaxRetries : Int
  MinRetryBackoff : Duration
  MaxRetryBackoff : Duration
  DialTimeout : Duration
  ReadTimeout : Duration
  WriteTimeout : Duration
  PoolSize : Int
  MinIdleConns : Int
  MaxConnAge : Duration
  PoolTimeout : Duration
  IdleTimeout : Duration
  IdleCheckFrequency : Duration
deriving DecidableEq, Repr

/-- The Go zero value of `redis.FailoverOptions`: what a composite literal
leaves in every field it does not mention. -/
def FailoverOptions.zero : FailoverOptions :=
  { MasterName := "", SentinelAddrs := [], SentinelPassword := "", Username := "",
    Password := "", DB := 0, MaxRetries := 0, MinRetryBackoff := 0,
    MaxRetryBackoff := 0, DialTimeout := 0, ReadTimeout := 0, WriteTimeout := 0,
    PoolSize := 0, MinIdleConns := 0, MaxConnAge := 0, PoolTimeout := 0,
    IdleTimeout := 0, IdleCheckFrequency := 0 }

/-- Modelled from the spec: the record type `redis.ClusterOptions` is declared
by the client library, not under src/.  It carries the nineteen fields the
composite literal of `NewClusterlnstance` assigns; `OnConnect` is a function
value, `none` being Go's nil. -/
structure ClusterOptions (S : Sig) where
  Addrs : List String
  Password : String
  MaxRedirects : Int
  ReadOnly : Bool
  RouteByLatency : Bool
  RouteRandomly : Bool
  OnConnect : Option (S.Context → S.Conn → Option S.Error)
  PoolSize : Int
  MinIdleConns : Int
  MaxRetries : Int
  MinRetryBackoff : Duration
  MaxRetryBackoff : Duration
  DialTimeout : Duration
  ReadTimeout : Duration
  WriteTimeout : Duration
  PoolTimeout : Duration
  IdleCheckFrequency : Duration
  IdleTimeout : Duration
  MaxConnAge : Duration

/-- The interface `redis.Cmdable`, as far as the source uses it: a value is
either a `*redis.Client` or a `*redis.ClusterClient`. -/
inductive Cmdable (S : Sig) where
  | client : S.Client → Cmdable S
  | cluster : S.ClusterClient → Cmdable S

/-- How `Ping(ctx).Result()` on a cluster client ends: it returns a reply and
an error (`none` being the nil error), or the call panics inside the library
with a value, recorded by its message. -/
inductive PingReturn (S : Sig) where
  | returned : String → Option S.Error → PingReturn S
  | panicked : String → PingReturn S

/-- The library as the source sees it.  `GOMAXPROCS` is the value of
`runtime.GOMAXPROCS(0)`; `buildClusterClient` is the part of
`redis.NewClusterClient` that builds the client from the option record once
that record is normalised; a `Ping` on a `*redis.Client` built by
`NewFailoverClient` returns a reply and an error.  Each entry may read and
change the library's state. -/
structure Library (S : Sig) where
  GOMAXPROCS : Int
  NewFailoverClient : FailoverOptions → S.World → S.Client × S.World
  buildClusterClient : ClusterOptions S → S.World → S.ClusterClient × S.World
  ClientPing : S.Client → S.Context → S.World → (String × Option S.Error) × S.World
  ClusterPing : S.ClusterClient → S.Context → S.World → PingReturn S × S.World

/-- Modelled from the spec: the method `(*ClusterOptions).init` of the client
library, not under src/, which `redis.NewClusterClient` runs on the record
behind its argument.  A routing flag switches `ReadOnly` on (section 3 of the
specification; comments on lines 50-53 of redis.go); in the numeric fields -1
stands for none and 0 for the library default (comments on lines 70-91;
the defaults are those of go-redis v8, durations in nanoseconds). -/
def ClusterOptions.init {S : Sig} (procs : Int) (opt : ClusterOptions S) : ClusterOptions S :=
  let readTimeout : Duration :=
    if opt.ReadTimeout = -1 then 0
    else if opt.ReadTimeout = 0 then 3000000000
    else opt.ReadTimeout
  { opt with
    MaxRedirects :=
      if opt.MaxRedirects = -1 then 0
      else if opt.MaxRedirects = 0 then 3
      else opt.MaxRedirects
    ReadOnly := if (opt.RouteByLatency || opt.RouteRandomly) = true then true else opt.ReadOnly
    PoolSize := if opt.PoolSize = 0 then 5 * procs else opt.PoolSize
    ReadTimeout := readTimeout
    WriteTimeout :=
      if opt.WriteTimeout = -1 then 0
      else if opt.WriteTimeout = 0 then readTimeout
      else opt.WriteTimeout
    MaxRetries := if opt.MaxRetries = 0 then -1 else opt.MaxRetries
    MinRetryBackoff :=
      if opt.MinRetryBackoff = -1 then 0
      else if opt.MinRetryBackoff = 0 then 8000000
      else opt.MinRetryBackoff
    MaxRetryBackoff :=
      if opt.MaxRetryBackoff = -1 then 0
      else if opt.MaxRetryBackoff = 0 then 512000000
      else opt.MaxRetryBackoff }

/-- Modelled from the spec: the constructor `redis.NewClusterClient` of the
client library, not under src/.  It is handed a pointer to the option record,
normalises the record in place and builds the client around it.  The result is
the client handle, the record as it stands behind the pointer afterwards (the
effective options, which `Options()` of the client reports), and the library
state. -/
def Library.NewClusterClient {S : Sig} (lib : Library S) (opt : ClusterOptions S)
    (w : S.World) : (S.ClusterClient × ClusterOptions S) × S.World :=
  let effective := opt.init lib.GOMAXPROCS
  let built := lib.buildClusterClient effective w
  ((built.1, effective), built.2)

/-- One library call, with its arguments, as recorded in the trace. -/
inductive Call (S : Sig) where
  | NewFailoverClient : FailoverOptions → Call S
  | NewClusterClient : ClusterOptions S → Call S
  | ClientPing : S.Client → S.Context → Call S
  | ClusterPing : S.ClusterClient → S.Context → Call S

/-- The state a factory runs in: the library's state, the calls made so far,
and the package-level variable `redisClient` (redis.go, line 11; `none` is the
nil interface value it starts with). -/
structure State (S : Sig) where
  world : S.World
  trace : List (Call S)
  redisClient : Option (Cmdable S)

/-- How a Go function call ends: it returns a value, or it panics with a
value (here always a string). -/
inductive Outcome (α : Type) where
  | ret : α → Outcome α
  | panic : String → Outcome α
deriving DecidableEq, Repr

/-- Whether an outcome is a panic. -/
def Outcome.isPanic {α : Type} : Outcome α → Bool
  | Outcome.ret _ => false
  | Outcome.panic _ => true

/-! ## The sentinel factory -/

/-- The composite literal `&redis.FailoverOptions{...}` of `NewSentinelnstance`
(redis.go, lines 26-34). -/
def sentinelOptions (config : RedisSentinelConfig) : FailoverOptions :=
  { FailoverOptions.zero with
    MasterName := config.MasterName
    SentinelAddrs := config.SentinelAddrs
    Password := config.Password
    DB := config.DB
    ReadTimeout := config.ReadTimeout
    WriteTimeout := config.WriteTimeout
    IdleTimeout := config.IdleTimeout }

/-- The function `NewSentinelnstance` (redis.go, lines 25-40).  The short
variable declaration `redisClient := ...` introduces a local that shadows the
package-level variable, which is therefore passed through untouched. -/
def NewSentinelnstance {S : Sig} (lib : Library S) (ctx : S.Context)
    (config : RedisSentinelConfig) (s : State S) : Outcome S.Client × State S :=
  let opt := sentinelOptions config
  let made := lib.NewFailoverClient opt s.world
  let redisClient := made.1
  let s1 : State S := { s with world := made.2, trace := s.trace ++ [Call.NewFailoverClient opt] }
  let pinged := lib.ClientPing redisClient ctx s1.world
  let err := pinged.1.2
  let s2 : State S := { s1 with world := pinged.2, trace := s1.trace ++ [Call.ClientPing redisClient ctx] }
  match err with
  | some _ => (Outcome.panic "ping redis sentinel failed", s2)
  | none => (Outcome.ret redisClient, s2)

/-! ## The cluster factory -/

/-- The function literal installed as `OnConnect` (redis.go, lines 125-127):
`return nil`. -/
def onConnectHook (S : Sig) : S.Context → S.Conn → Option S.Error :=
  fun _ _ => none

/-- The composite literal `&redis.ClusterOptions{...}` of `NewClusterlnstance`
(redis.go, lines 96-149). -/
def clusterOptions (S : Sig) (config : RedisClusterlConfig) : ClusterOptions S :=
  { Addrs := config.Addrs
    Password := config.Password
    MaxRedirects := config.MaxRedirects
    ReadOnly := config.ReadOnly
    RouteByLatency := config.RouteByLatency
    RouteRandomly := config.RouteRandomly
    OnConnect := some (onConnectHook S)
    PoolSize := config.PoolSize
    MinIdleConns := config.MinIdleConns
    MaxRetries := config.MaxRetries
    MinRetryBackoff := config.MinRetryBackoff
    MaxRetryBackoff := config.MaxRetryBackoff
    DialTimeout := config.DialTimeout
    ReadTimeout := config.ReadTimeout
    WriteTimeout := config.WriteTimeout
    PoolTimeout := config.PoolTimeout
    IdleCheckFrequency := config.IdleCheckFrequency
    IdleTimeout := config.IdleTimeout
    MaxConnAge := config.MaxConnAge }

/-- The function `NewClusterlnstance` (redis.go, lines 95-155).  As in the
sentinel factory, `redisClient := ...` is a local that shadows the
package-level variable.  The trace records the option record as it is when
the constructor is entered.  The function has no `recover`, so a panic inside
`Ping` ends the call with that panic. -/
def NewClusterlnstance {S : Sig} (lib : Library S) (ctx : S.Context)
    (config : RedisClusterlConfig) (s : State S) : Outcome S.ClusterClient × State S :=
  let opt := clusterOptions S config
  let made := lib.NewClusterClient opt s.world
  let redisClient := made.1.1
  let s1 : State S := { s with world := made.2, trace := s.trace ++ [Call.NewClusterClient opt] }
  let pinged := lib.ClusterPing redisClient ctx s1.world
  let s2 : State S := { s1 with world := pinged.2, trace := s1.trace ++ [Call.ClusterPing redisClient ctx] }
  match pinged.1 with
  | PingReturn.panicked v => (Outcome.panic v, s2)
  | PingReturn.returned _ (some _) => (Outcome.panic "ping redis cluster failed", s2)
  | PingReturn.returned _ none => (Outcome.ret redisClient, s2)

/-! ## Names for the intermediate values of a run -/

/-- The client handle `redis.NewFailoverClient` hands back in a run of
`NewSentinelnstance` from state `s`. -/
def sentinelClient {S : Sig} (lib : Library S) (config : RedisSentinelConfig)
    (s : State S) : S.Client :=
  (lib.NewFailoverClient (sentinelOptions config) s.world).1

/-- The error of the ping `NewSentinelnstance` issues on that handle. -/
def sentinelPingErr {S : Sig} (lib : Library S) (ctx : S.Context)
    (config : RedisSentinelConfig) (s : State S) : Option S.Error :=
  (lib.ClientPing (sentinelClient lib config s) ctx
    (lib.NewFailoverClient (sentinelOptions config) s.world).2).1.2

/-- The client handle `redis.NewClusterClient` hands back in a run of
`NewClusterlnstance` from state `s`. -/
def clusterClient {S : Sig} (lib : Library S) (config : RedisClusterlConfig)
    (s : State S) : S.ClusterClient :=
  (lib.NewClusterClient (clusterOptions S config) s.world).1.1

/-- The effective options of that client: the option record of
`NewClusterlnstance` as it stands once `redis.NewClusterClient` has returned. -/
def clusterEffectiveOptions {S : Sig} (lib : Library S) (config : RedisClusterlConfig)
    (s : State S) : ClusterOptions S :=
  (lib.NewClusterClient (clusterOptions S config) s.world).1.2

/-- How the ping `NewClusterlnstance` issues on that handle ends. -/
def clusterPing {S : Sig} (lib : Library S) (ctx : S.Context)
    (config : RedisClusterlConfig) (s : State S) : PingReturn S :=
  (lib.ClusterPing (clusterClient lib config s) ctx
    (lib.NewClusterClient (clusterOptions S config) s.world).2).1

/-- The error that ping returns: `none` when it returns the nil error, and
also when it does not return. -/
def clusterPingErr {S : Sig} (lib : Library S) (ctx : S.Context)
    (config : RedisClusterlConfig) (s : State S) : Option S.Error :=
  match clusterPing lib ctx config s with
  | PingReturn.returned _ err => err
  | PingReturn.panicked _ => none

/-! ## A small concrete library, for evaluating the factories -/

/-- A concrete signature: a context is a flag telling whether it is already
canceled, errors are strings, handles are numbers counted from 1, and the
library state lists the pool size of every client built so far. -/
@[reducible] def demoSig : Sig :=
  { Context := Bool, Error := String, Conn := Unit, Client := Nat,
    ClusterClient := Nat, World := List Int }

/-- A concrete library over `demoSig`, on four processors.  Constructors hand
out fresh handles.  A ping on a cluster client whose pool size is negative
panics when the first connection pool is made (Go: `make` of a channel of
negative size); otherwise a ping fails exactly when the context is
canceled. -/
def demoLib : Library demoSig :=
  { GOMAXPROCS := 4
    NewFailoverClient := fun _ w => (w.length + 1, w ++ [40])
    buildClusterClient := fun opt w => (w.length + 1, w ++ [opt.PoolSize])
    ClientPing := fun _ ctx w =>
      if ctx = true then (("", some "context canceled"), w) else (("PONG", none), w)
    ClusterPing := fun h ctx w =>
      if w.getD (h - 1) 0 < 0 then (PingReturn.panicked "makechan: size out of range", w)
      else if ctx = true then (PingReturn.returned "" (some "context canceled"), w)
      else (PingReturn.returned "PONG" none, w) }

/-- The state before any call: fresh library, empty trace, nil `redisClient`. -/
def demoInit : State demoSig :=
  { world := [], trace := [], redisClient := none }

/-- A sentinel configuration with one sentinel address. -/
def demoSentinelConfig : RedisSentinelConfig :=
  { MasterName := "mymaster", SentinelAddrs := ["127.0.0.1:26379"], Password := "",
    DB := 0, ReadTimeout := 0, WriteTimeout := -1, IdleTimeout := 0 }

/-- The cluster configuration of the specification's concrete
scenario, with latency routing switched on and `ReadOnly` left false. -/
def demoClusterConfig : RedisClusterlConfig :=
  { Addrs := ["127.0.0.1:7000"], Password := "", ReadOnly := false,
    RouteByLatency := true, RouteRandomly := false, MaxRedirects := 0,
    PoolSize := 20, MinIdleConns := 0, MaxRetries := 3, MinRetryBackoff := -1,
    MaxRetryBackoff := 0, DialTimeout := 0, ReadTimeout := 0, WriteTimeout := 0,
    PoolTimeout := 0, IdleCheckFrequency := 0, IdleTimeout := 0, MaxConnAge := 0 }

/-- A cluster configuration with a negative pool size and every other tunable
left at zero. -/
def demoNegativePoolConfig : RedisClusterlConfig :=
  { Addrs := ["127.0.0.1:7000"], Password := "", ReadOnly := false,
    RouteByLatency := false, RouteRandomly := false, MaxRedirects := 0,
    PoolSize := -5, MinIdleConns := 0, MaxRetries := 0, MinRetryBackoff := 0,
    MaxRetryBackoff := 0, DialTimeout := 0, ReadTimeout := 0, WriteTimeout := 0,
    PoolTimeout := 0, IdleCheckFrequency := 0, IdleTimeout := 0, MaxConnAge := 0 }

/-! ## Reading the trace -/

/-- The option records handed to `redis.NewFailoverClient` in a trace, in call
order. -/
def failoverOptionsPassed {S : Sig} (tr : List (Call S)) : List FailoverOptions :=
  tr.filterMap fun k =>
    match k with
    | Call.NewFailoverClient o => some o
    | _ => none

/-- The option records handed to `redis.NewClusterClient` in a trace, in call
order. -/
def clusterOptionsPassed {S : Sig} (tr : List (Call S)) : List (ClusterOptions S) :=
  tr.filterMap fun k =>
    match k with
    | Call.NewClusterClient o => some o
    | _ => none

/-! ## What a run of either factory does -/

/-- The outcome of `NewSentinelnstance`, by the error of its ping. -/
theorem NewSentinelnstance_outcome {S : Sig} (lib : Library S) (ctx : S.Context)
    (c : RedisSentinelConfig) (s : State S) :
    (NewSentinelnstance lib ctx c s).1 =
      match sentinelPingErr lib ctx c s with
      | some _ => Outcome.panic "ping redis sentinel failed"
      | none => Outcome.ret (sentinelClient lib c s) := by
  unfold NewSentinelnstance sentinelPingErr sentinelClient
  simp only []
  split <;> simp_all

/-- The state `NewSentinelnstance` leaves behind: two more calls in the trace,
the library state after the ping, and the package-level variable as it was. -/
theorem NewSentinelnstance_state {S : Sig} (lib : Library S) (ctx : S.Context)
    (c : RedisSentinelConfig) (s : State S) :
    (NewSentinelnstance lib ctx c s).2 =
      { world := (lib.ClientPing (sentinelClient lib c s) ctx
          (lib.NewFailoverClient (sentinelOptions c) s.world).2).2
        trace := s.trace ++ [Call.NewFailoverClient (sentinelOptions c),
          Call.ClientPing (sentinelClient lib c s) ctx]
        redisClient := s.redisClient } := by
  unfold NewSentinelnstance sentinelClient
  simp only []
  split <;> simp

/-- The outcome of `NewClusterlnstance`, by the way its ping ends. -/
theorem NewClusterlnstance_outcome {S : Sig} (lib : Library S) (ctx : S.Context)
    (c : RedisClusterlConfig) (s : State S) :
    (NewClusterlnstance lib ctx c s).1 =
      match clusterPing lib ctx c s with
      | PingReturn.panicked v => Outcome.panic v
      | PingReturn.returned _ (some _) => Outcome.panic "ping redis cluster failed"
      | PingReturn.returned _ none => Outcome.ret (clusterClient lib c s) := by
  unfold NewClusterlnstance clusterPing clusterClient
  simp only []
  split <;> simp_all

/-- The state `NewClusterlnstance` leaves behind: two more calls in the trace,
the library state after the ping, and the package-level variable as it was. -/
theorem NewClusterlnstance_state {S : Sig} (lib : Library S) (ctx : S.Context)
    (c : RedisClusterlConfig) (s : State S) :
    (NewClusterlnstance lib ctx c s).2 =
      { world := (lib.ClusterPing (clusterClient lib c s) ctx
          (lib.NewClusterClient (clusterOptions S c) s.world).2).2
        trace := s.trace ++ [Call.NewClusterClient (clusterOptions S c),
          Call.ClusterPing (clusterClient lib c s) ctx]
        redisClient := s.redisClient } := by
  unfold NewClusterlnstance clusterClient
  simp only []
  split <;> simp

/-- The outcome of `NewClusterlnstance` when its ping returns an error. -/
theorem NewClusterlnstance_outcome_of_err {S : Sig} (lib : Library S) (ctx : S.Context)
    (c : RedisClusterlConfig) (s : State S) (h : clusterPingErr lib ctx c s ≠ none) :
    (NewClusterlnstance lib ctx c s).1 = Outcome.panic "ping redis cluster failed" := by
  rw [NewClusterlnstance_outcome]
  unfold clusterPingErr at h
  cases hp : clusterPing lib ctx c s with
  | panicked v => rw [hp] at h; exact absurd rfl h
  | returned r e =>
    cases e with
    | none => rw [hp] at h; exact absurd rfl h
    | some e => rfl

/-- The effective options of the cluster client are the normalised option
record of the factory. -/
theorem clusterEffectiveOptions_eq {S : Sig} (lib : Library S)
    (c : RedisClusterlConfig) (s : State S) :
    clusterEffectiveOptions lib c s = (clusterOptions S c).init lib.GOMAXPROCS := rfl

/-- A run of `NewSentinelnstance` passes exactly one failover option record. -/
theorem failoverOptionsPassed_run {S : Sig} (lib : Library S) (ctx : S.Context)
    (c : RedisSentinelConfig) (s : State S) :
    failoverOptionsPassed (NewSentinelnstance lib ctx c s).2.trace =
      failoverOptionsPassed s.trace ++ [sentinelOptions c] := by
  rw [NewSentinelnstance_state]
  simp [failoverOptionsPassed, List.filterMap_append]

/-- A run of `NewClusterlnstance` passes exactly one cluster option record. -/
theorem clusterOptionsPassed_run {S : Sig} (lib : Library S) (ctx : S.Context)
    (c : RedisClusterlConfig) (s : State S) :
    clusterOptionsPassed (NewClusterlnstance lib ctx c s).2.trace =
      clusterOptionsPassed s.trace ++ [clusterOptions S c] := by
  rw [NewClusterlnstance_state]
  simp [clusterOptionsPassed, List.filterMap_append]

/-! ## The option records -/

/-- Claim C1, refuted as stated: for the demo cluster config the effective
options of the constructed client do not read back as the config: `ReadOnly`
is true against false, `MaxRedirects` is 3 against 0 and `MinRetryBackoff` is
0 against -1. -/
theorem cluster_effective_options_differ :
    demoClusterConfig.ReadOnly = false ∧
      (clusterEffectiveOptions demoLib demoClusterConfig demoInit).ReadOnly = true ∧
      demoClusterConfig.MaxRedirects = 0 ∧
      (clusterEffectiveOptions demoLib demoClusterConfig demoInit).MaxRedirects = 3 ∧
      demoClusterConfig.MinRetryBackoff = -1 ∧
      (clusterEffectiveOptions demoLib demoClusterConfig demoInit).MinRetryBackoff = 0 := by
  refine ⟨rfl, ?_, rfl, ?_, rfl, ?_⟩ <;> rw [clusterEffectiveOptions_eq] <;> decide

/-- Claim C1, amended: the option record `NewClusterlnstance` constructs and
hands to `redis.NewClusterClient` carries each of the eighteen config fields
unchanged, whatever their values.  On the effective options of the constructed
client ten fields read back as the config has them; `ReadOnly` reads back
unchanged unless a routing flag is set; `PoolSize` and `MaxRetries` read back
unchanged unless they are 0; `MaxRedirects`, the two retry backoffs and the
read and write timeouts read back unchanged unless they are 0 or -1. -/
theorem cluster_options_read_back {S : Sig} (lib : Library S) (ctx : S.Context)
    (c : RedisClusterlConfig) (s : State S) :
    (clusterOptionsPassed (NewClusterlnstance lib ctx c s).2.trace =
        clusterOptionsPassed s.trace ++ [clusterOptions S c] ∧
      (clusterOptions S c).Addrs = c.Addrs ∧
      (clusterOptions S c).Password = c.Password ∧
      (clusterOptions S c).ReadOnly = c.ReadOnly ∧
      (clusterOptions S c).RouteByLatency = c.RouteByLatency ∧
      (clusterOptions S c).RouteRandomly = c.RouteRandomly ∧
      (clusterOptions S c).MaxRedirects = c.MaxRedirects ∧
      (clusterOptions S c).PoolSize = c.PoolSize ∧
      (clusterOptions S c).MinIdleConns = c.MinIdleConns ∧
      (clusterOptions S c).MaxRetries = c.MaxRetries ∧
      (clusterOptions S c).MinRetryBackoff = c.MinRetryBackoff ∧
      (clusterOptions S c).MaxRetryBackoff = c.MaxRetryBackoff ∧
      (clusterOptions S c).DialTimeout = c.DialTimeout ∧
      (clusterOptions S c).ReadTimeout = c.ReadTimeout ∧
      (clusterOptions S c).WriteTimeout = c.WriteTimeout ∧
      (clusterOptions S c).PoolTimeout = c.PoolTimeout ∧
      (clusterOptions S c).IdleCheckFrequency = c.IdleCheckFrequency ∧
      (clusterOptions S c).IdleTimeout = c.IdleTimeout ∧
      (clusterOptions S c).MaxConnAge = c.MaxConnAge) ∧
    ((clusterEffectiveOptions lib c s).Addrs = c.Addrs ∧
      (clusterEffectiveOptions lib c s).Password = c.Password ∧
      (clusterEffectiveOptions lib c s).RouteByLatency = c.RouteByLatency ∧
      (clusterEffectiveOptions lib c s).RouteRandomly = c.RouteRandomly ∧
      (clusterEffectiveOptions lib c s).MinIdleConns = c.MinIdleConns ∧
      (clusterEffectiveOptions lib c s).DialTimeout = c.DialTimeout ∧
      (clusterEffectiveOptions lib c s).PoolTimeout = c.PoolTimeout ∧
      (clusterEffectiveOptions lib c s).IdleCheckFrequency = c.IdleCheckFrequency ∧
      (clusterEffectiveOptions lib c s).IdleTimeout = c.IdleTimeout ∧
      (clusterEffectiveOptions lib c s).MaxConnAge = c.MaxConnAge) ∧
    (c.RouteByLatency = true ∨ c.RouteRandomly = true ∨ (clusterEffectiveOptions lib c s).ReadOnly = c.ReadOnly) ∧
    (c.PoolSize = 0 ∨ (clusterEffectiveOptions lib c s).PoolSize = c.PoolSize) ∧
    (c.MaxRetries = 0 ∨ (clusterEffectiveOptions lib c s).MaxRetries = c.MaxRetries) ∧
    (c.MaxRedirects = 0 ∨ c.MaxRedirects = -1 ∨ (clusterEffectiveOptions lib c s).MaxRedirects = c.MaxRedirects) ∧
    (c.MinRetryBackoff = 0 ∨ c.MinRetryBackoff = -1 ∨
      (clusterEffectiveOptions lib c s).MinRetryBackoff = c.MinRetryBackoff) ∧
    (c.MaxRetryBackoff = 0 ∨ c.MaxRetryBackoff = -1 ∨
      (clusterEffectiveOptions lib c s).MaxRetryBackoff = c.MaxRetryBackoff) ∧
    (c.ReadTimeout = 0 ∨ c.ReadTimeout = -1 ∨ (clusterEffectiveOptions lib c s).ReadTimeout = c.ReadTimeout) ∧
    (c.WriteTimeout = 0 ∨ c.WriteTimeout = -1 ∨ (clusterEffectiveOptions lib c s).WriteTimeout = c.WriteTimeout) := by
  rw [clusterEffectiveOptions_eq]
  refine ⟨⟨clusterOptionsPassed_run lib ctx c s, ?_⟩, ?_, ?_, ?_, ?_, ?_, ?_, ?_, ?_, ?_⟩
  · simp [clusterOptions]
  · simp [clusterOptions, ClusterOptions.init]
  · cases h1 : c.RouteByLatency <;> cases h2 : c.RouteRandomly <;>
      simp [clusterOptions, ClusterOptions.init, h1, h2]
  · by_cases h : c.PoolSize = 0
    · exact Or.inl h
    · exact Or.inr (by simp [clusterOptions, ClusterOptions.init, h])
  · by_cases h : c.MaxRetries = 0
    · exact Or.inl h
    · exact Or.inr (by simp [clusterOptions, ClusterOptions.init, h])
  · by_cases h : c.MaxRedirects = 0
    · exact Or.inl h
    · by_cases h1 : c.MaxRedirects = -1
      · exact Or.inr (Or.inl h1)
      · exact Or.inr (Or.inr (by simp [clusterOptions, ClusterOptions.init, h, h1]))
  · by_cases h : c.MinRetryBackoff = 0
    · exact Or.inl h
    · by_cases h1 : c.MinRetryBackoff = -1
      · exact Or.inr (Or.inl h1)
      · exact Or.inr (Or.inr (by simp [clusterOptions, ClusterOptions.init, h, h1]))
  · by_cases h : c.MaxRetryBackoff = 0
    · exact Or.inl h
    · by_cases h1 : c.MaxRetryBackoff = -1
      · exact Or.inr (Or.inl h1)
      · exact Or.inr (Or.inr (by simp [clusterOptions, ClusterOptions.init, h, h1]))
  · by_cases h : c.ReadTimeout = 0
    · exact Or.inl h
    · by_cases h1 : c.ReadTimeout = -1
      · exact Or.inr (Or.inl h1)
      · exact Or.inr (Or.inr (by simp [clusterOptions, ClusterOptions.init, h, h1]))
  · by_cases h : c.WriteTimeout = 0
    · exact Or.inl h
    · by_cases h1 : c.WriteTimeout = -1
      · exact Or.inr (Or.inl h1)
      · exact Or.inr (Or.inr (by simp [clusterOptions, ClusterOptions.init, h, h1]))

/-- Claim C2: the failover options `NewSentinelnstance` constructs and hands to
`redis.NewFailoverClient` map the seven config fields one-to-one; the sentinel
addresses are the same list, element for element. -/
theorem sentinel_options_map_config {S : Sig} (lib : Library S) (ctx : S.Context)
    (c : RedisSentinelConfig) (s : State S) :
    failoverOptionsPassed (NewSentinelnstance lib ctx c s).2.trace =
        failoverOptionsPassed s.trace ++ [sentinelOptions c] ∧
      (sentinelOptions c).MasterName = c.MasterName ∧
      (sentinelOptions c).SentinelAddrs = c.SentinelAddrs ∧
      (sentinelOptions c).Password = c.Password ∧
      (sentinelOptions c).DB = c.DB ∧
      (sentinelOptions c).ReadTimeout = c.ReadTimeout ∧
      (sentinelOptions c).WriteTimeout = c.WriteTimeout ∧
      (sentinelOptions c).IdleTimeout = c.IdleTimeout := by
  refine ⟨failoverOptionsPassed_run lib ctx c s, ?_⟩
  simp [sentinelOptions]

/-- Claim C10: besides the seven mapped fields the failover options of
`NewSentinelnstance` hold the zero value in every further field, and two
configs that agree on the seven fields give the same option record. -/
theorem sentinel_options_rest_zero {S : Sig} (lib : Library S) (ctx : S.Context)
    (c : RedisSentinelConfig) (s : State S) :
    failoverOptionsPassed (NewSentinelnstance lib ctx c s).2.trace =
        failoverOptionsPassed s.trace ++ [sentinelOptions c] ∧
      (sentinelOptions c).SentinelPassword = "" ∧
      (sentinelOptions c).Username = "" ∧
      (sentinelOptions c).MaxRetries = 0 ∧
      (sentinelOptions c).MinRetryBackoff = 0 ∧
      (sentinelOptions c).MaxRetryBackoff = 0 ∧
      (sentinelOptions c).DialTimeout = 0 ∧
      (sentinelOptions c).PoolSize = 0 ∧
      (sentinelOptions c).MinIdleConns = 0 ∧
      (sentinelOptions c).MaxConnAge = 0 ∧
      (sentinelOptions c).PoolTimeout = 0 ∧
      (sentinelOptions c).IdleCheckFrequency = 0 ∧
      (∀ d : RedisSentinelConfig,
        c.MasterName = d.MasterName → c.SentinelAddrs = d.SentinelAddrs →
        c.Password = d.Password → c.DB = d.DB → c.ReadTimeout = d.ReadTimeout →
        c.WriteTimeout = d.WriteTimeout → c.IdleTimeout = d.IdleTimeout →
        sentinelOptions c = sentinelOptions d) := by
  refine ⟨failoverOptionsPassed_run lib ctx c s, ?_⟩
  refine ⟨rfl, rfl, rfl, rfl, rfl, rfl, rfl, rfl, rfl, rfl, rfl, ?_⟩
  intro d h1 h2 h3 h4 h5 h6 h7
  simp [sentinelOptions, h1, h2, h3, h4, h5, h6, h7]

/-- Claim C10, at a concrete run: the options built from the demo sentinel
config have a zero pool size, and a config with the same seven fields gives
the same options. -/
theorem sentinel_options_rest_zero_witness :
    (sentinelOptions demoSentinelConfig).PoolSize = 0 ∧
      sentinelOptions demoSentinelConfig =
        sentinelOptions
          { MasterName := "mymaster", SentinelAddrs := ["127.0.0.1:26379"], Password := "",
            DB := 0, ReadTimeout := 0, WriteTimeout := -1, IdleTimeout := 0 } :=
  ⟨(sentinel_options_rest_zero demoLib false demoSentinelConfig demoInit).2.2.2.2.2.2.2.1,
    (sentinel_options_rest_zero demoLib false demoSentinelConfig demoInit).2.2.2.2.2.2.2.2.2.2.2.2 _
      rfl rfl rfl rfl rfl rfl rfl⟩

/-- Claim C9: the `OnConnect` hook in the cluster options is the same
function for every config, and it returns the nil error for every context and
every connection. -/
theorem onConnect_hook_inert {S : Sig} (lib : Library S) (ctx : S.Context)
    (c d : RedisClusterlConfig) (s : State S) :
    clusterOptionsPassed (NewClusterlnstance lib ctx c s).2.trace =
        clusterOptionsPassed s.trace ++ [clusterOptions S c] ∧
      (clusterOptions S c).OnConnect = some (onConnectHook S) ∧
      (clusterOptions S d).OnConnect = (clusterOptions S c).OnConnect ∧
      (∀ (hookCtx : S.Context) (conn : S.Conn), onConnectHook S hookCtx conn = none) :=
  ⟨clusterOptionsPassed_run lib ctx c s, rfl, rfl, fun _ _ => rfl⟩

/-! ## Fail-fast behaviour -/

/-- Claim C3: `NewSentinelnstance` panics exactly when the ping on the client it
constructed returns a non-nil error, whichever error that is; when the ping
returns the nil error it returns that client handle.  These are the only two
outcomes. -/
theorem sentinel_panics_iff_ping_fails {S : Sig} (lib : Library S) (ctx : S.Context)
    (c : RedisSentinelConfig) (s : State S) :
    ((NewSentinelnstance lib ctx c s).1.isPanic = true ↔ sentinelPingErr lib ctx c s ≠ none) ∧
      ((sentinelPingErr lib ctx c s = none ∧
          (NewSentinelnstance lib ctx c s).1 = Outcome.ret (sentinelClient lib c s)) ∨
        (∃ e v, sentinelPingErr lib ctx c s = some e ∧
          (NewSentinelnstance lib ctx c s).1 = Outcome.panic v)) := by
  rw [NewSentinelnstance_outcome]
  cases h : sentinelPingErr lib ctx c s with
  | none => simp [Outcome.isPanic]
  | some e => simp [Outcome.isPanic]

/-- Claim C4, refuted as stated: for the config with pool size -5 and a live
context the ping returns no error, yet `NewClusterlnstance` panics, with the
panic raised inside the ping, and returns no handle. -/
theorem cluster_ping_panic_escapes :
    clusterPingErr demoLib false demoNegativePoolConfig demoInit = none ∧
      (NewClusterlnstance demoLib false demoNegativePoolConfig demoInit).1.isPanic = true ∧
      (NewClusterlnstance demoLib false demoNegativePoolConfig demoInit).1 =
        Outcome.panic "makechan: size out of range" := by
  refine ⟨by decide, ?_, ?_⟩ <;> rw [NewClusterlnstance_outcome] <;> decide

/-- Claim C4, amended: `NewClusterlnstance` ends in one of three ways, decided
by the ping on the cluster client it constructed.  If the ping returns the nil
error the call returns that client handle; if the ping returns a non-nil error
the call panics with its own fixed message; if the ping panics inside the
library the call panics with that value.  So the call panics exactly when the
ping does not return the nil error.  Constructor and ping are called for every
config: none is turned away before the ping. -/
theorem cluster_outcome_by_ping {S : Sig} (lib : Library S) (ctx : S.Context)
    (c : RedisClusterlConfig) (s : State S) :
    ((∃ r, clusterPing lib ctx c s = PingReturn.returned r none ∧
          (NewClusterlnstance lib ctx c s).1 = Outcome.ret (clusterClient lib c s)) ∨
        (∃ r e, clusterPing lib ctx c s = PingReturn.returned r (some e) ∧
          (NewClusterlnstance lib ctx c s).1 = Outcome.panic "ping redis cluster failed") ∨
        (∃ v, clusterPing lib ctx c s = PingReturn.panicked v ∧
          (NewClusterlnstance lib ctx c s).1 = Outcome.panic v)) ∧
      ((NewClusterlnstance lib ctx c s).1.isPanic = true ↔
        ¬ ∃ r, clusterPing lib ctx c s = PingReturn.returned r none) ∧
      (NewClusterlnstance lib ctx c s).2.trace =
        s.trace ++ [Call.NewClusterClient (clusterOptions S c),
          Call.ClusterPing (clusterClient lib c s) ctx] := by
  refine ⟨?_, ?_, ?_⟩
  · rw [NewClusterlnstance_outcome]
    cases h : clusterPing lib ctx c s with
    | panicked v => simp
    | returned r e => cases e <;> simp
  · rw [NewClusterlnstance_outcome]
    cases h : clusterPing lib ctx c s with
    | panicked v => simp [Outcome.isPanic]
    | returned r e => cases e <;> simp [Outcome.isPanic]
  · rw [NewClusterlnstance_state]

/-- Claim C8: a run of either factory adds exactly two library calls to the
trace, the constructor and then one ping with the caller's context on the
constructed client, whether the ping succeeds or fails. -/
theorem factories_construct_then_ping_once {S : Sig} (lib : Library S) (ctx : S.Context)
    (cs : RedisSentinelConfig) (cc : RedisClusterlConfig) (s : State S) :
    (NewSentinelnstance lib ctx cs s).2.trace =
        s.trace ++ [Call.NewFailoverClient (sentinelOptions cs),
          Call.ClientPing (sentinelClient lib cs s) ctx] ∧
      (NewClusterlnstance lib ctx cc s).2.trace =
        s.trace ++ [Call.NewClusterClient (clusterOptions S cc),
          Call.ClusterPing (clusterClient lib cc s) ctx] := by
  rw [NewSentinelnstance_state, NewClusterlnstance_state]
  exact ⟨rfl, rfl⟩

/-! ## Read-only routing -/

/-- Claim C5: when a config sets `RouteByLatency` or `RouteRandomly`, the
effective options of the client `NewClusterlnstance` constructs have
`ReadOnly` true, whatever the config has in `ReadOnly`. -/
theorem cluster_routing_flag_forces_readOnly {S : Sig} (lib : Library S) (ctx : S.Context)
    (c : RedisClusterlConfig) (s : State S)
    (h : c.RouteByLatency = true ∨ c.RouteRandomly = true) :
    clusterOptionsPassed (NewClusterlnstance lib ctx c s).2.trace =
        clusterOptionsPassed s.trace ++ [clusterOptions S c] ∧
      (clusterEffectiveOptions lib c s).ReadOnly = true := by
  refine ⟨clusterOptionsPassed_run lib ctx c s, ?_⟩
  rw [clusterEffectiveOptions_eq]
  rcases h with h | h <;> simp [clusterOptions, ClusterOptions.init, h]

/-- Claim C5, at the demo cluster config, which sets `RouteByLatency` and has
`ReadOnly` false. -/
theorem cluster_routing_flag_forces_readOnly_witness :
    (demoClusterConfig.RouteByLatency = true ∨ demoClusterConfig.RouteRandomly = true) ∧
      demoClusterConfig.ReadOnly = false ∧
      (clusterOptionsPassed (NewClusterlnstance demoLib false demoClusterConfig demoInit).2.trace =
          clusterOptionsPassed demoInit.trace ++ [clusterOptions demoSig demoClusterConfig] ∧
        (clusterEffectiveOptions demoLib demoClusterConfig demoInit).ReadOnly = true) :=
  ⟨Or.inl rfl, rfl,
    cluster_routing_flag_forces_readOnly demoLib false demoClusterConfig demoInit (Or.inl rfl)⟩

/-! ## The panic values -/

/-- Claim C6, refuted as stated: with a canceled context the sentinel factory
panics with "ping redis sentinel failed" and the cluster factory with
"ping redis cluster failed", not with the two texts of the claim. -/
theorem panic_values_differ_from_spec :
    (NewSentinelnstance demoLib true demoSentinelConfig demoInit).1 =
        Outcome.panic "ping redis sentinel failed" ∧
      (NewSentinelnstance demoLib true demoSentinelConfig demoInit).1 ≠
        Outcome.panic "sentinel ping failed" ∧
      (NewClusterlnstance demoLib true demoClusterConfig demoInit).1 =
        Outcome.panic "ping redis cluster failed" ∧
      (NewClusterlnstance demoLib true demoClusterConfig demoInit).1 ≠
        Outcome.panic "cluster ping failed" := by
  refine ⟨?_, ?_, ?_, ?_⟩
  · rw [NewSentinelnstance_outcome]; decide
  · rw [NewSentinelnstance_outcome]; decide
  · rw [NewClusterlnstance_outcome]; decide
  · rw [NewClusterlnstance_outcome]; decide

/-- Claim C6, amended: when the ping fails, the panic value is a fixed string
that depends on neither the config, the context nor the error:
"ping redis sentinel failed" for `NewSentinelnstance` and
"ping redis cluster failed" for `NewClusterlnstance`. -/
theorem panic_values_fixed {S : Sig} (lib : Library S) (ctx : S.Context)
    (cs : RedisSentinelConfig) (cc : RedisClusterlConfig) (s : State S) :
    (sentinelPingErr lib ctx cs s ≠ none →
        (NewSentinelnstance lib ctx cs s).1 = Outcome.panic "ping redis sentinel failed") ∧
      (clusterPingErr lib ctx cc s ≠ none →
        (NewClusterlnstance lib ctx cc s).1 = Outcome.panic "ping redis cluster failed") := by
  constructor
  · intro h
    rw [NewSentinelnstance_outcome]
    cases h1 : sentinelPingErr lib ctx cs s with
    | none => exact absurd h1 h
    | some e => rfl
  · intro h
    exact NewClusterlnstance_outcome_of_err lib ctx cc s h

/-- Claim C6, amended, at a run with a canceled context: both pings fail and
both factories panic with their fixed string. -/
theorem panic_values_fixed_witness :
    (sentinelPingErr demoLib true demoSentinelConfig demoInit ≠ none ∧
        clusterPingErr demoLib true demoClusterConfig demoInit ≠ none) ∧
      (NewSentinelnstance demoLib true demoSentinelConfig demoInit).1 =
        Outcome.panic "ping redis sentinel failed" ∧
      (NewClusterlnstance demoLib true demoClusterConfig demoInit).1 =
        Outcome.panic "ping redis cluster failed" :=
  ⟨⟨by decide, by decide⟩,
    (panic_values_fixed demoLib true demoSentinelConfig demoClusterConfig demoInit).1 (by decide),
    (panic_values_fixed demoLib true demoSentinelConfig demoClusterConfig demoInit).2 (by decide)⟩

/-! ## The package-level variable -/

/-- Neither factory assigns the package-level variable `redisClient`. -/
theorem factories_keep_redisClient {S : Sig} (lib : Library S) (ctx : S.Context)
    (cs : RedisSentinelConfig) (cc : RedisClusterlConfig) (s : State S) :
    (NewSentinelnstance lib ctx cs s).2.redisClient = s.redisClient ∧
      (NewClusterlnstance lib ctx cc s).2.redisClient = s.redisClient := by
  rw [NewSentinelnstance_state, NewClusterlnstance_state]
  exact ⟨rfl, rfl⟩

/-- Claim C7, evaluated: after a successful `NewClusterlnstance`, and likewise
after a successful `NewSentinelnstance`, the call has returned a client handle
and the package-level `redisClient` is still nil. -/
theorem redisClient_still_nil_after_success :
    (NewClusterlnstance demoLib false demoClusterConfig demoInit).1 = Outcome.ret 1 ∧
      (NewClusterlnstance demoLib false demoClusterConfig demoInit).2.redisClient.isNone = true ∧
      (NewSentinelnstance demoLib false demoSentinelConfig demoInit).1 = Outcome.ret 1 ∧
      (NewSentinelnstance demoLib false demoSentinelConfig demoInit).2.redisClient.isNone = true :=
  ⟨rfl, rfl, rfl, rfl⟩

end RedisUtils
